import Mathlib
/-!
Verification of the mutating admission webhook (`app/main.py`).

The Python handler is shallowly embedded: JSON-decoded Python values become
the inductive `PyVal`; every access that can raise in Python (attribute
access on a non-dict, iteration over a non-iterable, `.upper()` on a
non-string) is modelled in the `Except PyErr` monad; truthiness and the
`or` operator are modelled explicitly.
-/
set_option maxRecDepth 10000

/-- The configuration read from the environment at module load:
`TARGET_LABEL_KEY`, `TARGET_LABEL_VALUE`, `REWRITE_FROM`, `REWRITE_TO`. -/
structure Config where
  labelKey : String
  labelValue : String
  rewriteFrom : String
  rewriteTo : String
  deriving DecidableEq

/-- The default configuration of `app/main.py`. -/
def defaultConfig : Config :=
  { labelKey := "nfs-home", labelValue := "true",
    rewriteFrom := "/home", rewriteTo := "/blah/home" }

/-- A JSON-decoded Python value: `None`, `bool`, `int`, `str`, `list`, `dict`
(string keys, insertion order preserved). -/
inductive PyVal where
  | none : PyVal
  | bool : Bool → PyVal
  | int : Int → PyVal
  | str : String → PyVal
  | list : List PyVal → PyVal
  | dict : List (String × PyVal) → PyVal

/-- Exceptions the embedded code can raise. -/
inductive PyErr where
  | attributeError : PyErr
  | typeError : PyErr
  | valueError : PyErr
  | jsonError : PyErr
  deriving DecidableEq

/-- Python truthiness of a value. -/
def pyTruthy : PyVal → Bool
  | PyVal.none => false
  | PyVal.bool b => b
  | PyVal.int n => n != 0
  | PyVal.str s => s != ""
  | PyVal.list xs => !xs.isEmpty
  | PyVal.dict es => !es.isEmpty

/-- Python `a or b`. -/
def pyOr (a b : PyVal) : PyVal := if pyTruthy a then a else b

/-- The empty dict `{}` used as the `or` fallback throughout the handler. -/
def pyEmptyDict : PyVal := PyVal.dict []

/-- Is the value a dict (`isinstance(v, dict)`). -/
def isDict : PyVal → Bool
  | PyVal.dict _ => true
  | _ => false

/-- Python `v.get(k)` with default `None`: succeeds on dicts, raises
`AttributeError` on anything else. -/
def pyGet : PyVal → String → Except PyErr PyVal
  | PyVal.dict es, k => Except.ok ((es.lookup k).getD PyVal.none)
  | _, _ => Except.error PyErr.attributeError

/-- Total dict lookup with default `None`; used only where the value is
already known to be a dict. -/
def pyGetD : PyVal → String → PyVal
  | PyVal.dict es, k => (es.lookup k).getD PyVal.none
  | _, _ => PyVal.none

/-- Python iteration (`enumerate(v)`): lists yield their elements, strings
their characters, dicts their keys; other values raise `TypeError`. -/
def pyIter : PyVal → Except PyErr (List PyVal)
  | PyVal.list xs => Except.ok xs
  | PyVal.str s => Except.ok (s.data.map fun c => PyVal.str (String.singleton c))
  | PyVal.dict es => Except.ok (es.map fun e => PyVal.str e.1)
  | _ => Except.error PyErr.typeError

/-- Python `v == s` for a string literal `s`: only a `str` can compare equal. -/
def pyEqStr (v : PyVal) (s : String) : Bool :=
  match v with
  | PyVal.str t => t == s
  | _ => false

/-- Python `v.upper()`: succeeds on strings, raises on anything else. -/
def pyUpper : PyVal → Except PyErr String
  | PyVal.str s => Except.ok s.toUpper
  | _ => Except.error PyErr.attributeError

/-- Python `s.rstrip("/")`: remove all trailing `/` characters. -/
def rstripSlash (s : String) : String :=
  String.mk ((s.data.reverse.dropWhile fun c => c == '/').reverse)

/-- Python `s.startswith(p)`; strings are sequences of code points, so this
is list-prefix on the character data. -/
def pyStartswith (s p : String) : Bool := p.data.isPrefixOf s.data

/-- Python `s[n:]` for `n ≥ 0`: drop the first `n` code points. -/
def pyDrop (s : String) (n : Nat) : String := String.mk (s.data.drop n)

/-- `replace_home_path` from `app/main.py`:
maps mount paths from `REWRITE_FROM[...]` to `REWRITE_TO[...]`. -/
def replace_home_path (cfg : Config) (original_path : String) : String :=
  let from_exact := cfg.rewriteFrom
  let fromPfx := rstripSlash cfg.rewriteFrom ++ "/"
  let to_base := rstripSlash cfg.rewriteTo
  if original_path == from_exact then to_base ++ "/"
  else if pyStartswith original_path fromPfx then
    to_base ++ pyDrop (pyDrop original_path (fromPfx.length - 1)) from_exact.length
  else original_path

/-- `has_target_label` from `app/main.py`:
`labels = (obj.get("metadata") or {}).get("labels") or {}`, then compare
`labels.get(LABEL_KEY)` with `LABEL_VALUE`. -/
def has_target_label (cfg : Config) (obj : PyVal) : Except PyErr Bool :=
  match pyGet obj "metadata" with
  | Except.error e => Except.error e
  | Except.ok m =>
    match pyGet (pyOr m pyEmptyDict) "labels" with
    | Except.error e => Except.error e
    | Except.ok l0 =>
      match pyGet (pyOr l0 pyEmptyDict) cfg.labelKey with
      | Except.error e => Except.error e
      | Except.ok v => Except.ok (pyEqStr v cfg.labelValue)

/-- One RFC 6902 operation as built by the webhook:
`\x7b"op": "replace", "path": ..., "value": ...\x7d`. -/
structure PatchOp where
  op : String
  path : String
  value : String
  deriving DecidableEq

/-- The f-string `f"\x7bbase_path\x7d/\x7bcontainer_index\x7d/volumeMounts/\x7bmount_index\x7d/mountPath"`. -/
def mkPatchPath (base : String) (i j : Nat) : String :=
  base ++ "/" ++ toString i ++ "/volumeMounts/" ++ toString j ++ "/mountPath"

/-- The `isinstance(mount_path, str)` test, paired with the string itself. -/
def pyAsStr : PyVal → Option String
  | PyVal.str s => Option.some s
  | _ => Option.none

/-- Inner loop of `patches_for_volume_mounts`: walk the mounts of container
`ci`, mount index starting at `j`; a non-string `mountPath` is skipped. -/
def pfvmMounts (cfg : Config) (base : String) (ci : Nat) (j : Nat) :
    List PyVal → Except PyErr (List PatchOp)
  | [] => Except.ok []
  | m :: rest =>
    match pyGet m "mountPath" with
    | Except.error e => Except.error e
    | Except.ok mp =>
      match pfvmMounts cfg base ci (j + 1) rest with
      | Except.error e => Except.error e
      | Except.ok tail =>
        match pyAsStr mp with
        | Option.none => Except.ok tail
        | Option.some p =>
          if p == cfg.rewriteFrom || pyStartswith p (rstripSlash cfg.rewriteFrom ++ "/") then
            let newPath := replace_home_path cfg p
            if newPath == p then Except.ok tail
            else Except.ok (PatchOp.mk "replace" (mkPatchPath base ci j) newPath :: tail)
          else Except.ok tail

/-- Outer loop of `patches_for_volume_mounts`: walk the containers, container
index starting at `i`; per container, `volumeMounts or []` is iterated. -/
def pfvmContainers (cfg : Config) (base : String) (i : Nat) :
    List PyVal → Except PyErr (List PatchOp)
  | [] => Except.ok []
  | c :: rest =>
    match pyGet c "volumeMounts" with
    | Except.error e => Except.error e
    | Except.ok vm0 =>
      match pyIter (pyOr vm0 (PyVal.list [])) with
      | Except.error e => Except.error e
      | Except.ok ms =>
        match pfvmMounts cfg base i 0 ms with
        | Except.error e => Except.error e
        | Except.ok ops1 =>
          match pfvmContainers cfg base (i + 1) rest with
          | Except.error e => Except.error e
          | Except.ok ops2 => Except.ok (ops1 ++ ops2)

/-- `patches_for_volume_mounts` from `app/main.py`:
`for container_index, container in enumerate(containers or []): ...`. -/
def patches_for_volume_mounts (cfg : Config) (base : String) (containers : PyVal) :
    Except PyErr (List PatchOp) :=
  match pyIter (pyOr containers (PyVal.list [])) with
  | Except.error e => Except.error e
  | Except.ok cs => pfvmContainers cfg base 0 cs

/-- `build_patches` from `app/main.py`: dispatch on the kind string to locate
the container lists and concatenate the per-list patches. -/
def build_patches (cfg : Config) (kind obj : PyVal) : Except PyErr (List PatchOp) :=
  if pyEqStr kind "Pod" then
    match pyGet obj "spec" with
    | Except.error e => Except.error e
    | Except.ok spec0 =>
      match pyGet (pyOr spec0 pyEmptyDict) "containers" with
      | Except.error e => Except.error e
      | Except.ok cs0 =>
        match pyGet (pyOr spec0 pyEmptyDict) "initContainers" with
        | Except.error e => Except.error e
        | Except.ok ics0 =>
          match patches_for_volume_mounts cfg "/spec/containers" (pyOr cs0 (PyVal.list [])) with
          | Except.error e => Except.error e
          | Except.ok p1 =>
            match patches_for_volume_mounts cfg "/spec/initContainers" (pyOr ics0 (PyVal.list [])) with
            | Except.error e => Except.error e
            | Except.ok p2 => Except.ok (p1 ++ p2)
  else if pyEqStr kind "Deployment" then
    match pyGet obj "spec" with
    | Except.error e => Except.error e
    | Except.ok spec0 =>
      match pyGet (pyOr spec0 pyEmptyDict) "template" with
      | Except.error e => Except.error e
      | Except.ok t0 =>
        match pyGet (pyOr t0 pyEmptyDict) "spec" with
        | Except.error e => Except.error e
        | Except.ok ts0 =>
          match pyGet (pyOr ts0 pyEmptyDict) "containers" with
          | Except.error e => Except.error e
          | Except.ok cs0 =>
            match pyGet (pyOr ts0 pyEmptyDict) "initContainers" with
            | Except.error e => Except.error e
            | Except.ok ics0 =>
              match patches_for_volume_mounts cfg "/spec/template/spec/containers"
                  (pyOr cs0 (PyVal.list [])) with
              | Except.error e => Except.error e
              | Except.ok p1 =>
                match patches_for_volume_mounts cfg "/spec/template/spec/initContainers"
                    (pyOr ics0 (PyVal.list [])) with
                | Except.error e => Except.error e
                | Except.ok p2 => Except.ok (p1 ++ p2)
  else Except.ok []

/-- One lowercase hex digit. -/
def hexDigit (n : Nat) : Char :=
  if n < 10 then Char.ofNat (48 + n) else Char.ofNat (87 + n)

/-- Four lowercase hex digits, as in Python's `\uXXXX` escapes. -/
def hex4 (n : Nat) : String :=
  String.mk [hexDigit (n / 4096 % 16), hexDigit (n / 256 % 16),
             hexDigit (n / 16 % 16), hexDigit (n % 16)]

/-- `json.dumps` escaping of one character with the default
`ensure_ascii=True`: shortcuts for the common escapes, `\uXXXX` for other
characters outside `0x20`–`0x7e` (surrogate pairs beyond the BMP). -/
def jsonEscapeChar (c : Char) : String :=
  if c == '"' then "\\\""
  else if c == '\\' then "\\\\"
  else if c == '\n' then "\\n"
  else if c == '\t' then "\\t"
  else if c == '\r' then "\\r"
  else if c == '\x08' then "\\b"
  else if c == '\x0c' then "\\f"
  else if 0x20 ≤ c.toNat && c.toNat ≤ 0x7e then String.singleton c
  else if c.toNat ≤ 0xffff then "\\u" ++ hex4 c.toNat
  else
    "\\u" ++ hex4 (0xd800 + (c.toNat - 0x10000) / 0x400) ++
    "\\u" ++ hex4 (0xdc00 + (c.toNat - 0x10000) % 0x400)

/-- `json.dumps` of a string value. -/
def jsonStringLit (s : String) : String :=
  "\"" ++ s.data.foldr (fun c acc => jsonEscapeChar c ++ acc) "" ++ "\""

/-- `json.dumps` of one patch-operation dict; keys in insertion order
`op`, `path`, `value`, default separators `", "` and `": "`. -/
def json_dumps_op (p : PatchOp) : String :=
  "\x7b\"op\": " ++ jsonStringLit p.op ++ ", \"path\": " ++ jsonStringLit p.path ++
    ", \"value\": " ++ jsonStringLit p.value ++ "\x7d"

/-- `json.dumps(ops)` for the list of patch operations. -/
def json_dumps_ops (l : List PatchOp) : String :=
  "[" ++ String.intercalate ", " (l.map json_dumps_op) ++ "]"

/-- UTF-8 encoding of one character, as a list of byte values. -/
def utf8Char (c : Char) : List Nat :=
  if c.toNat < 0x80 then [c.toNat]
  else if c.toNat < 0x800 then [0xc0 + c.toNat / 64, 0x80 + c.toNat % 64]
  else if c.toNat < 0x10000 then
    [0xe0 + c.toNat / 4096, 0x80 + c.toNat / 64 % 64, 0x80 + c.toNat % 64]
  else
    [0xf0 + c.toNat / 262144, 0x80 + c.toNat / 4096 % 64,
     0x80 + c.toNat / 64 % 64, 0x80 + c.toNat % 64]

/-- `s.encode("utf-8")` as a list of byte values. -/
def utf8Bytes (s : String) : List Nat :=
  s.data.foldr (fun c acc => utf8Char c ++ acc) []

/-- Character `n` of the standard base64 alphabet. -/
def b64Char (n : Nat) : Char :=
  "ABCDEFGHIJKLMNOPQRSTUVWXYZabcdefghijklmnopqrstuvwxyz0123456789+/".data.getD n 'A'

/-- `base64.b64encode(bytes).decode("utf-8")`: standard base64 with `=`
padding, three input bytes per four output characters. -/
def b64encode : List Nat → String
  | [] => ""
  | [a] => String.mk [b64Char (a / 4), b64Char (a % 4 * 16), '=', '=']
  | [a, b] => String.mk [b64Char (a / 4), b64Char (a % 4 * 16 + b / 16), b64Char (b % 16 * 4), '=']
  | a :: b :: c :: rest =>
    String.mk [b64Char (a / 4), b64Char (a % 4 * 16 + b / 16),
               b64Char (b % 16 * 4 + c / 64), b64Char (c % 64)] ++ b64encode rest

/-- The fields of the admission `response` dict that the handler builds
(`uid`, `allowed`, optional `patch`/`patchType`). -/
structure AdmissionResponse where
  uid : PyVal
  allowed : Bool
  patch : Option String
  patchType : Option String

/-- `req = (body or {}).get("request") or {}`; the handler reaches this line
only after checking `isinstance(body, dict)`, so the total dict lookup is
exact here. -/
def reqOf (body : PyVal) : PyVal := pyOr (pyGetD body "request") pyEmptyDict

/-- The `try:` block of the `mutate` handler, for an already-JSON-decoded
body (`Option.none` models a body that is not valid JSON, on which
`request.get_json(force=True, silent=False)` raises). -/
def mutateTry (cfg : Config) (rawBody : Option PyVal) : Except PyErr AdmissionResponse :=
  match rawBody with
  | Option.none => Except.error PyErr.jsonError
  | Option.some body =>
    if isDict body then
      match pyGet (reqOf body) "uid" with
      | Except.error e => Except.error e
      | Except.ok uid =>
        match pyGet (reqOf body) "kind" with
        | Except.error e => Except.error e
        | Except.ok kindInfo =>
          match pyGet (pyOr kindInfo pyEmptyDict) "kind" with
          | Except.error e => Except.error e
          | Except.ok kind =>
            match pyGet (reqOf body) "operation" with
            | Except.error e => Except.error e
            | Except.ok op0 =>
              match pyUpper (pyOr op0 (PyVal.str "")) with
              | Except.error e => Except.error e
              | Except.ok _operation =>
                match pyGet (reqOf body) "object" with
                | Except.error e => Except.error e
                | Except.ok obj0 =>
                  if pyEqStr kind "Pod" || pyEqStr kind "Deployment" then
                    match has_target_label cfg (pyOr obj0 pyEmptyDict) with
                    | Except.error e => Except.error e
                    | Except.ok el =>
                      if el then
                        match build_patches cfg kind (pyOr obj0 pyEmptyDict) with
                        | Except.error e => Except.error e
                        | Except.ok ops =>
                          if ops.isEmpty then
                            Except.ok (AdmissionResponse.mk uid true Option.none Option.none)
                          else
                            Except.ok (AdmissionResponse.mk uid true
                              (Option.some (b64encode (utf8Bytes (json_dumps_ops ops))))
                              (Option.some "JSONPatch"))
                      else Except.ok (AdmissionResponse.mk uid true Option.none Option.none)
                  else Except.ok (AdmissionResponse.mk uid true Option.none Option.none)
    else Except.error PyErr.valueError

/-- The patch-operation sequence the handler computes for a body: the
eligibility gate short-circuits to the empty sequence; `build_patches` runs
only for a labelled Pod/Deployment. -/
def mutateOps (cfg : Config) (body : PyVal) : Except PyErr (List PatchOp) :=
  if isDict body then
    match pyGet (reqOf body) "kind" with
    | Except.error e => Except.error e
    | Except.ok kindInfo =>
      match pyGet (pyOr kindInfo pyEmptyDict) "kind" with
      | Except.error e => Except.error e
      | Except.ok kind =>
        match pyGet (reqOf body) "object" with
        | Except.error e => Except.error e
        | Except.ok obj0 =>
          if pyEqStr kind "Pod" || pyEqStr kind "Deployment" then
            match has_target_label cfg (pyOr obj0 pyEmptyDict) with
            | Except.error e => Except.error e
            | Except.ok el =>
              if el then build_patches cfg kind (pyOr obj0 pyEmptyDict) else Except.ok []
          else Except.ok []
  else Except.error PyErr.valueError

/-- The uid recovery of the `except` branch:
`((request.get_json(silent=True) or {}).get("request") or {}).get("uid")`,
with the inner `try/except` leaving `fail_uid = None` on any error. -/
def failUid (rawBody : Option PyVal) : PyVal :=
  match rawBody with
  | Option.none => PyVal.none
  | Option.some b =>
    match pyGet (pyOr b pyEmptyDict) "request" with
    | Except.error _ => PyVal.none
    | Except.ok r0 =>
      match pyGet (pyOr r0 pyEmptyDict) "uid" with
      | Except.error _ => PyVal.none
      | Except.ok u => u

/-- The whole `mutate` handler: the `try:` block with the top-level
`except Exception` fail-open branch. -/
def mutate (cfg : Config) (rawBody : Option PyVal) : AdmissionResponse :=
  match mutateTry cfg rawBody with
  | Except.ok r => r
  | Except.error _ => AdmissionResponse.mk (failUid rawBody) true Option.none Option.none

/-- The Pod object of the worked example: label `nfs-home=true`, one
container whose volumeMounts are `/home`, `/data`, `/home/x`. -/
def examplePodObj : PyVal :=
  PyVal.dict
    [("metadata", PyVal.dict [("labels", PyVal.dict [("nfs-home", PyVal.str "true")])]),
     ("spec", PyVal.dict
       [("containers", PyVal.list
         [PyVal.dict [("volumeMounts", PyVal.list
           [PyVal.dict [("mountPath", PyVal.str "/home")],
            PyVal.dict [("mountPath", PyVal.str "/data")],
            PyVal.dict [("mountPath", PyVal.str "/home/x")]])]])])]

/-- The admission body wrapping `examplePodObj` as a Pod request. -/
def examplePodBody : PyVal :=
  PyVal.dict [("request", PyVal.dict
    [("uid", PyVal.str "u1"),
     ("kind", PyVal.dict [("kind", PyVal.str "Pod")]),
     ("object", examplePodObj)])]

/-- The labelled-but-unlabelled example: a Pod whose object has metadata
without labels and a `/home` mount; used as C6's concrete witness. -/
def exampleUnlabeledPodBody : PyVal :=
  PyVal.dict [("request", PyVal.dict
    [("kind", PyVal.dict [("kind", PyVal.str "Pod")]),
     ("object", PyVal.dict
       [("metadata", PyVal.dict []),
        ("spec", PyVal.dict
          [("containers", PyVal.list
            [PyVal.dict [("volumeMounts", PyVal.list
              [PyVal.dict [("mountPath", PyVal.str "/home")]])]])])])])]

/-- A labelled Deployment whose pod template has one container with a
`/home` mount. -/
def exampleDeployObj : PyVal :=
  PyVal.dict
    [("metadata", PyVal.dict [("labels", PyVal.dict [("nfs-home", PyVal.str "true")])]),
     ("spec", PyVal.dict [("template", PyVal.dict [("spec", PyVal.dict
       [("containers", PyVal.list [PyVal.dict [("volumeMounts", PyVal.list
         [PyVal.dict [("mountPath", PyVal.str "/home")]])]])])])])]

/-- A Deployment object whose pod template metadata carries the configured
label but whose top-level metadata is the arbitrary `metaV`. -/
def deploymentObjTL (cfg : Config) (metaV tmplSpec : PyVal) : PyVal :=
  PyVal.dict
    [("metadata", metaV),
     ("spec", PyVal.dict [("template", PyVal.dict
       [("metadata", PyVal.dict [("labels",
           PyVal.dict [(cfg.labelKey, PyVal.str cfg.labelValue)])]),
        ("spec", tmplSpec)])])]

/-- An admission body carrying `deploymentObjTL` as a Deployment request. -/
def deploymentBodyTL (cfg : Config) (uid metaV tmplSpec : PyVal) : PyVal :=
  PyVal.dict [("request", PyVal.dict
    [("uid", uid),
     ("kind", PyVal.dict [("kind", PyVal.str "Deployment")]),
     ("object", deploymentObjTL cfg metaV tmplSpec)])]

/-- A pod-template spec with a `/home` mount, for C10's concrete witness. -/
def exampleTmplSpec : PyVal :=
  PyVal.dict [("containers", PyVal.list [PyVal.dict [("volumeMounts",
    PyVal.list [PyVal.dict [("mountPath", PyVal.str "/home")]])]])]

/-- C1: the claim says `replace_home_path(S + "/" + T)` keeps the whole
suffix `T` (e.g. `/home/alice ↦ /blah/home/alice`), as the function's own
docstring also promises; the slice in the source instead drops
`len(fromPfx) - 1 + len(from_exact)` characters, so under the default
configuration `/home/alice` is rewritten to `/blah/homee`. -/
theorem replace_home_path_descendant_actual :
    replace_home_path defaultConfig "/home/alice" = "/blah/homee" ∧
    replace_home_path defaultConfig "/home/alice" ≠ "/blah/home/alice" := by
  decide

/-- C2: for the labelled example Pod with mounts `/home`, `/data`,
`/home/x`, the handler computes exactly two replace operations at mount
indices 0 and 2 and none at index 1, but the value of the second operation
is `/blah/home` (the slicing bug of C1), not `/blah/home/x` as the claim
and the source's docstring state. -/
theorem mutateOps_example_pod_actual :
    mutateOps defaultConfig examplePodBody =
      Except.ok
        [PatchOp.mk "replace" "/spec/containers/0/volumeMounts/0/mountPath" "/blah/home/",
         PatchOp.mk "replace" "/spec/containers/0/volumeMounts/2/mountPath" "/blah/home"] ∧
    "/blah/home" ≠ "/blah/home/x" := by
  constructor
  · rfl
  · decide

/-- C3: a path exactly equal to the configured source prefix is rewritten
to the destination prefix with trailing slashes normalized to exactly one
(`to_base + "/"` in the source), for every configuration with non-empty
prefixes; in particular `/home ↦ /blah/home/` by the witness below. -/
theorem replace_home_path_exact_source (cfg : Config) (p : String)
    (hS : cfg.rewriteFrom ≠ "") (hD : cfg.rewriteTo ≠ "")
    (hp : p = cfg.rewriteFrom) :
    replace_home_path cfg p = rstripSlash cfg.rewriteTo ++ "/" := by
  subst hp
  simp [replace_home_path]

theorem replace_home_path_exact_source_witness :
    defaultConfig.rewriteFrom ≠ "" ∧ defaultConfig.rewriteTo ≠ "" ∧
    replace_home_path defaultConfig "/home" = "/blah/home/" :=
  ⟨by decide, by decide,
    (replace_home_path_exact_source defaultConfig "/home" (by decide) (by decide)
      (by decide)).trans (by decide)⟩

/-- C4: a path that is neither exactly the source prefix nor starts with
the source prefix's trailing-slash-stripped form followed by `/` is
returned unchanged. -/
theorem replace_home_path_other_id (cfg : Config) (p : String)
    (h1 : p ≠ cfg.rewriteFrom)
    (h2 : pyStartswith p (rstripSlash cfg.rewriteFrom ++ "/") = false) :
    replace_home_path cfg p = p := by
  have hb : (p == cfg.rewriteFrom) = false := beq_eq_false_iff_ne.mpr h1
  simp [replace_home_path, hb, h2]

theorem replace_home_path_other_id_witness :
    "/data" ≠ defaultConfig.rewriteFrom ∧
    pyStartswith "/data" (rstripSlash defaultConfig.rewriteFrom ++ "/") = false ∧
    replace_home_path defaultConfig "/data" = "/data" :=
  ⟨by decide, by decide,
    replace_home_path_other_id defaultConfig "/data" (by decide) (by decide)⟩

/-- Characterization of a successful pass through the `try:` block: the
response is always allowed, and its `patch`/`patchType` fields are
determined by the computed patch-operation sequence. -/
theorem mutateTry_ok_char (cfg : Config) (body : PyVal) (r : AdmissionResponse)
    (h : mutateTry cfg (Option.some body) = Except.ok r) :
    r.allowed = true ∧ ∃ ops, mutateOps cfg body = Except.ok ops ∧
      ((ops = [] ∧ r.patch = Option.none ∧ r.patchType = Option.none) ∨
       (ops ≠ [] ∧
        r.patch = Option.some (b64encode (utf8Bytes (json_dumps_ops ops))) ∧
        r.patchType = Option.some "JSONPatch")) := by
  simp only [mutateTry] at h
  unfold mutateOps
  cases hd : isDict body with
  | false => simp [hd] at h
  | true =>
    simp only [hd, if_true] at h ⊢
    cases h1 : pyGet (reqOf body) "uid" with
    | error e => simp [h1] at h
    | ok uid =>
      simp only [h1] at h
      cases h2 : pyGet (reqOf body) "kind" with
      | error e => simp [h2] at h
      | ok kindInfo =>
        simp only [h2] at h ⊢
        cases h3 : pyGet (pyOr kindInfo pyEmptyDict) "kind" with
        | error e => simp [h3] at h
        | ok kind =>
          simp only [h3] at h ⊢
          cases h4 : pyGet (reqOf body) "operation" with
          | error e => simp [h4] at h
          | ok op0 =>
            simp only [h4] at h
            cases h5 : pyUpper (pyOr op0 (PyVal.str "")) with
            | error e => simp [h5] at h
            | ok opstr =>
              simp only [h5] at h
              cases h6 : pyGet (reqOf body) "object" with
              | error e => simp [h6] at h
              | ok obj0 =>
                simp only [h6] at h ⊢
                cases hg : (pyEqStr kind "Pod" || pyEqStr kind "Deployment") with
                | false =>
                  simp only [hg, Bool.false_eq_true, if_false] at h ⊢
                  injection h with h'
                  subst h'
                  exact ⟨rfl, [], rfl, Or.inl ⟨rfl, rfl, rfl⟩⟩
                | true =>
                  simp only [hg, if_true] at h ⊢
                  cases hel : has_target_label cfg (pyOr obj0 pyEmptyDict) with
                  | error e => simp [hel] at h
                  | ok el =>
                    simp only [hel] at h ⊢
                    cases el with
                    | false =>
                      simp only [Bool.false_eq_true, if_false] at h ⊢
                      injection h with h'
                      subst h'
                      exact ⟨rfl, [], rfl, Or.inl ⟨rfl, rfl, rfl⟩⟩
                    | true =>
                      simp only [if_true] at h ⊢
                      cases hb : build_patches cfg kind (pyOr obj0 pyEmptyDict) with
                      | error e => simp [hb] at h
                      | ok ops =>
                        simp only [hb] at h ⊢
                        cases he : ops.isEmpty with
                        | true =>
                          simp only [he, if_true] at h
                          injection h with h'
                          subst h'
                          exact ⟨rfl, ops, rfl,
                            Or.inl ⟨List.isEmpty_iff.mp he, rfl, rfl⟩⟩
                        | false =>
                          simp only [he, Bool.false_eq_true, if_false] at h
                          injection h with h'
                          subst h'
                          refine ⟨rfl, ops, rfl, Or.inr ⟨?_, rfl, rfl⟩⟩
                          intro hnil
                          rw [hnil] at he
                          exact Bool.noConfusion he

/-- A successful pass through the `try:` block implies the body was a dict. -/
theorem mutateTry_ok_isDict (cfg : Config) (body : PyVal) (r : AdmissionResponse)
    (h : mutateTry cfg (Option.some body) = Except.ok r) : isDict body = true := by
  simp only [mutateTry] at h
  cases hd : isDict body with
  | false => simp [hd] at h
  | true => rfl

/-- C5: for a well-formed request handled without an exception, the response
carries `patch`/`patchType` iff the computed patch-operation sequence is
non-empty, and then `patchType` is `JSONPatch` and `patch` is the base64 of
the UTF-8 JSON serialization of the sequence. -/
theorem mutate_patch_iff_ops (cfg : Config) (body : PyVal) (r : AdmissionResponse)
    (ops : List PatchOp)
    (hr : mutateTry cfg (Option.some body) = Except.ok r)
    (hops : mutateOps cfg body = Except.ok ops) :
    ((r.patch ≠ Option.none ∨ r.patchType ≠ Option.none) ↔ ops ≠ []) ∧
    (ops ≠ [] →
      r.patch = Option.some (b64encode (utf8Bytes (json_dumps_ops ops))) ∧
      r.patchType = Option.some "JSONPatch") := by
  obtain ⟨-, ops', hops', hcases⟩ := mutateTry_ok_char cfg body r hr
  rw [hops] at hops'
  injection hops' with he
  subst he
  cases hcases with
  | inl hc =>
    obtain ⟨h0, h1, h2⟩ := hc
    subst h0
    simp [h1, h2]
  | inr hc =>
    obtain ⟨h0, h1, h2⟩ := hc
    simp [h0, h1, h2]

theorem mutate_patch_iff_ops_witness :
    (((AdmissionResponse.mk PyVal.none true Option.none Option.none).patch ≠ Option.none ∨
      (AdmissionResponse.mk PyVal.none true Option.none Option.none).patchType ≠ Option.none) ↔
      ([] : List PatchOp) ≠ []) ∧
    (([] : List PatchOp) ≠ [] →
      (AdmissionResponse.mk PyVal.none true Option.none Option.none).patch =
        Option.some (b64encode (utf8Bytes (json_dumps_ops []))) ∧
      (AdmissionResponse.mk PyVal.none true Option.none Option.none).patchType =
        Option.some "JSONPatch") :=
  mutate_patch_iff_ops defaultConfig (PyVal.dict []) _ _ rfl rfl

/-- When the eligibility gate fails, the handler computes no operations. -/
theorem mutateOps_gate_false (cfg : Config) (body kindInfo kindv obj0 : PyVal)
    (hdict : isDict body = true)
    (h2 : pyGet (reqOf body) "kind" = Except.ok kindInfo)
    (h3 : pyGet (pyOr kindInfo pyEmptyDict) "kind" = Except.ok kindv)
    (h6 : pyGet (reqOf body) "object" = Except.ok obj0)
    (hgate : (pyEqStr kindv "Pod" || pyEqStr kindv "Deployment") = false ∨
             has_target_label cfg (pyOr obj0 pyEmptyDict) = Except.ok false) :
    mutateOps cfg body = Except.ok [] := by
  unfold mutateOps
  simp only [hdict, if_true, h2, h3, h6]
  cases hgate with
  | inl hg => simp [hg]
  | inr hl =>
    cases hg2 : (pyEqStr kindv "Pod" || pyEqStr kindv "Deployment") with
    | false => simp
    | true => simp [hl]

/-- C6: a request whose kind is not `Pod`/`Deployment`, or whose object
does not carry the configured label, yields an allowed response with no
patch fields and an empty computed operation sequence, whatever the
object's container mounts are. -/
theorem mutate_ineligible_no_patch (cfg : Config) (body kindInfo kindv obj0 : PyVal)
    (r : AdmissionResponse)
    (hr : mutateTry cfg (Option.some body) = Except.ok r)
    (h2 : pyGet (reqOf body) "kind" = Except.ok kindInfo)
    (h3 : pyGet (pyOr kindInfo pyEmptyDict) "kind" = Except.ok kindv)
    (h6 : pyGet (reqOf body) "object" = Except.ok obj0)
    (hgate : (pyEqStr kindv "Pod" || pyEqStr kindv "Deployment") = false ∨
             has_target_label cfg (pyOr obj0 pyEmptyDict) = Except.ok false) :
    r.allowed = true ∧ r.patch = Option.none ∧ r.patchType = Option.none ∧
    mutateOps cfg body = Except.ok [] := by
  have hops := mutateOps_gate_false cfg body kindInfo kindv obj0
    (mutateTry_ok_isDict cfg body r hr) h2 h3 h6 hgate
  obtain ⟨hal, ops', hops', hcases⟩ := mutateTry_ok_char cfg body r hr
  rw [hops] at hops'
  injection hops' with he
  subst he
  cases hcases with
  | inl hc => exact ⟨hal, hc.2.1, hc.2.2, hops⟩
  | inr hc => exact absurd rfl hc.1

theorem mutate_ineligible_no_patch_witness :
    (AdmissionResponse.mk PyVal.none true Option.none Option.none).allowed = true ∧
    (AdmissionResponse.mk PyVal.none true Option.none Option.none).patch = Option.none ∧
    (AdmissionResponse.mk PyVal.none true Option.none Option.none).patchType = Option.none ∧
    mutateOps defaultConfig exampleUnlabeledPodBody = Except.ok [] :=
  mutate_ineligible_no_patch defaultConfig exampleUnlabeledPodBody _ _ _ _
    rfl rfl rfl rfl (Or.inr rfl)

/-- C8: the top-level `except Exception` branch makes the handler fail
open: every response is allowed, a non-dict body (or a body that is not
valid JSON) yields the best-effort fail-open response with the uid
recovered by `failUid`, and so does any exception from the `try:` block. -/
theorem mutate_fail_open (cfg : Config) (rawBody : Option PyVal) :
    (mutate cfg rawBody).allowed = true ∧
    (∀ b, rawBody = Option.some b → isDict b = false →
      mutate cfg rawBody =
        AdmissionResponse.mk (failUid rawBody) true Option.none Option.none) ∧
    (∀ e, mutateTry cfg rawBody = Except.error e →
      mutate cfg rawBody =
        AdmissionResponse.mk (failUid rawBody) true Option.none Option.none) ∧
    (rawBody = Option.none →
      mutate cfg rawBody =
        AdmissionResponse.mk PyVal.none true Option.none Option.none) := by
  refine ⟨?_, ?_, ?_, ?_⟩
  · cases h : mutateTry cfg rawBody with
    | error e => unfold mutate; rw [h]
    | ok r =>
      unfold mutate
      rw [h]
      cases rawBody with
      | none => exact absurd h (by simp [mutateTry])
      | some body => exact (mutateTry_ok_char cfg body r h).1
  · intro b hb hdict
    subst hb
    have herr : mutateTry cfg (Option.some b) = Except.error PyErr.valueError := by
      simp [mutateTry, hdict]
    unfold mutate
    rw [herr]
  · intro e he
    unfold mutate
    rw [he]
  · intro hnone
    subst hnone
    rfl

theorem mutate_fail_open_witness :
    (mutate defaultConfig (Option.some (PyVal.list [PyVal.int 1]))).allowed = true ∧
    mutate defaultConfig (Option.some (PyVal.list [PyVal.int 1])) =
      AdmissionResponse.mk PyVal.none true Option.none Option.none ∧
    mutate defaultConfig Option.none =
      AdmissionResponse.mk PyVal.none true Option.none Option.none :=
  ⟨(mutate_fail_open defaultConfig (Option.some (PyVal.list [PyVal.int 1]))).1,
   (mutate_fail_open defaultConfig (Option.some (PyVal.list [PyVal.int 1]))).2.1
     (PyVal.list [PyVal.int 1]) rfl rfl,
   (mutate_fail_open defaultConfig Option.none).2.2.2 rfl⟩

/-- Taking at most the left part of an append ignores the right part. -/
theorem takeAppendLe {α : Type} : ∀ (l l' : List α) (n : Nat), n ≤ l.length →
    (l ++ l').take n = l.take n
  | _, _, 0, _ => by simp
  | [], _, Nat.succ n, h => by simp at h
  | a :: l, l', Nat.succ n, h => by
    simp only [List.cons_append, List.take_succ_cons]
    rw [takeAppendLe l l' n (Nat.le_of_succ_le_succ h)]

/-- Two appends are different strings when the shorter left part is not a
prefix of the longer one. -/
theorem str_append_ne (a b : String)
    (hlen : a.data.length ≤ b.data.length)
    (ha : a.data ≠ b.data.take a.data.length) :
    ∀ x y : String, b ++ x ≠ a ++ y := by
  intro x y he
  apply ha
  have hd : b.data ++ x.data = a.data ++ y.data := by
    rw [← String.data_append, ← String.data_append, he]
  have ht := congrArg (List.take a.data.length) hd
  rw [takeAppendLe b.data x.data a.data.length hlen,
      takeAppendLe a.data y.data a.data.length (Nat.le_refl _),
      List.take_length] at ht
  exact ht.symm

/-- The emitted path is the base plus `/` plus the per-list suffix. -/
theorem mkPatchPath_root (base : String) (i j : Nat) :
    mkPatchPath base i j =
      (base ++ "/") ++
        (toString i ++ ("/volumeMounts/" ++ (toString j ++ "/mountPath"))) := by
  unfold mkPatchPath
  rw [String.append_assoc, String.append_assoc, String.append_assoc,
      String.append_assoc]

/-- Same as `mkPatchPath_root`, with the slashed base precomputed. -/
theorem mkPatchPath_root' (base baseSlash : String) (hb : base ++ "/" = baseSlash)
    (i j : Nat) :
    mkPatchPath base i j =
      baseSlash ++ (toString i ++ ("/volumeMounts/" ++ (toString j ++ "/mountPath"))) := by
  rw [← hb]
  exact mkPatchPath_root base i j

/-- Every operation emitted for one container's mounts replaces a
`mountPath` under that container's index. -/
theorem pfvmMounts_path_shape (cfg : Config) (base : String) (ci : Nat) :
    ∀ (ms : List PyVal) (j : Nat) (l : List PatchOp),
      pfvmMounts cfg base ci j ms = Except.ok l →
      ∀ p ∈ l, p.op = "replace" ∧ ∃ j', p.path = mkPatchPath base ci j' := by
  intro ms
  induction ms with
  | nil =>
    intro j l h p hp
    unfold pfvmMounts at h
    injection h with h'
    subst h'
    cases hp
  | cons m rest ih =>
    intro j l h p hp
    unfold pfvmMounts at h
    cases hg : pyGet m "mountPath" with
    | error e => simp [hg] at h
    | ok mp =>
      simp only [hg] at h
      cases hrec : pfvmMounts cfg base ci (j + 1) rest with
      | error e => simp [hrec] at h
      | ok tail =>
        simp only [hrec] at h
        have htail := ih (j + 1) tail hrec
        cases hs : pyAsStr mp with
        | none =>
          simp only [hs] at h
          injection h with h'
          subst h'
          exact htail p hp
        | some ps =>
          simp only [hs] at h
          cases hc : (ps == cfg.rewriteFrom ||
              pyStartswith ps (rstripSlash cfg.rewriteFrom ++ "/")) with
          | false =>
            simp only [hc, Bool.false_eq_true, if_false] at h
            injection h with h'
            subst h'
            exact htail p hp
          | true =>
            simp only [hc, if_true] at h
            cases hn : (replace_home_path cfg ps == ps) with
            | true =>
              simp only [hn, if_true] at h
              injection h with h'
              subst h'
              exact htail p hp
            | false =>
              simp only [hn, Bool.false_eq_true, if_false] at h
              injection h with h'
              subst h'
              cases hp with
              | head => exact ⟨rfl, j, rfl⟩
              | tail _ hmem => exact htail p hmem

/-- Every operation emitted while walking a container list replaces a
`mountPath` under the given base path. -/
theorem pfvmContainers_path_shape (cfg : Config) (base : String) :
    ∀ (cs : List PyVal) (i : Nat) (l : List PatchOp),
      pfvmContainers cfg base i cs = Except.ok l →
      ∀ p ∈ l, p.op = "replace" ∧ ∃ i' j', p.path = mkPatchPath base i' j' := by
  intro cs
  induction cs with
  | nil =>
    intro i l h p hp
    unfold pfvmContainers at h
    injection h with h'
    subst h'
    cases hp
  | cons c rest ih =>
    intro i l h p hp
    unfold pfvmContainers at h
    cases hg : pyGet c "volumeMounts" with
    | error e => simp [hg] at h
    | ok vm0 =>
      simp only [hg] at h
      cases hit : pyIter (pyOr vm0 (PyVal.list [])) with
      | error e => simp [hit] at h
      | ok ms =>
        simp only [hit] at h
        cases hm : pfvmMounts cfg base i 0 ms with
        | error e => simp [hm] at h
        | ok ops1 =>
          simp only [hm] at h
          cases hrest : pfvmContainers cfg base (i + 1) rest with
          | error e => simp [hrest] at h
          | ok ops2 =>
            simp only [hrest] at h
            injection h with h'
            subst h'
            rcases List.mem_append.mp hp with hp1 | hp2
            · obtain ⟨hop, j', hpath⟩ := pfvmMounts_path_shape cfg base i ms 0 ops1 hm p hp1
              exact ⟨hop, i, j', hpath⟩
            · exact ih (i + 1) ops2 hrest p hp2

/-- Every operation emitted by `patches_for_volume_mounts` replaces a
`mountPath` under the given base path. -/
theorem pfvm_path_shape (cfg : Config) (base : String) (v : PyVal) (l : List PatchOp)
    (h : patches_for_volume_mounts cfg base v = Except.ok l) :
    ∀ p ∈ l, p.op = "replace" ∧ ∃ i j, p.path = mkPatchPath base i j := by
  unfold patches_for_volume_mounts at h
  cases hit : pyIter (pyOr v (PyVal.list [])) with
  | error e => simp [hit] at h
  | ok cs =>
    simp only [hit] at h
    exact pfvmContainers_path_shape cfg base cs 0 l h

/-- C7: `build_patches` dispatches on the kind string. For `Pod` the result
is the container-list patches followed by the separately-indexed
init-container patches, every path rooted at `/spec/containers/` resp.
`/spec/initContainers/`; for `Deployment` every path is rooted under the
pod template and never at `/spec/containers`; for any other kind the result
is empty. -/
theorem build_patches_dispatch (cfg : Config) (kind obj : PyVal) (l : List PatchOp)
    (hb : build_patches cfg kind obj = Except.ok l) :
    (pyEqStr kind "Pod" = false → pyEqStr kind "Deployment" = false → l = []) ∧
    (pyEqStr kind "Pod" = true →
      ∃ l₁ l₂ cs ics, l = l₁ ++ l₂ ∧
        patches_for_volume_mounts cfg "/spec/containers" cs = Except.ok l₁ ∧
        patches_for_volume_mounts cfg "/spec/initContainers" ics = Except.ok l₂ ∧
        (∀ p ∈ l₁, ∃ r, p.path = "/spec/containers/" ++ r) ∧
        (∀ p ∈ l₂, ∃ r, p.path = "/spec/initContainers/" ++ r)) ∧
    (pyEqStr kind "Deployment" = true →
      (∀ p ∈ l, (∃ r, p.path = "/spec/template/spec/containers/" ++ r) ∨
                (∃ r, p.path = "/spec/template/spec/initContainers/" ++ r)) ∧
      (∀ p ∈ l, ∀ r, p.path ≠ "/spec/containers" ++ r)) := by
  refine ⟨?_, ?_, ?_⟩
  · intro hp hd
    unfold build_patches at hb
    simp only [hp, hd, Bool.false_eq_true, if_false] at hb
    injection hb with h'
    exact h'.symm
  · intro hp
    unfold build_patches at hb
    simp only [hp, if_true] at hb
    cases hs : pyGet obj "spec" with
    | error e => simp [hs] at hb
    | ok spec0 =>
      simp only [hs] at hb
      cases hcs : pyGet (pyOr spec0 pyEmptyDict) "containers" with
      | error e => simp [hcs] at hb
      | ok cs0 =>
        simp only [hcs] at hb
        cases hics : pyGet (pyOr spec0 pyEmptyDict) "initContainers" with
        | error e => simp [hics] at hb
        | ok ics0 =>
          simp only [hics] at hb
          cases hp1 : patches_for_volume_mounts cfg "/spec/containers"
              (pyOr cs0 (PyVal.list [])) with
          | error e => simp [hp1] at hb
          | ok p1 =>
            simp only [hp1] at hb
            cases hp2 : patches_for_volume_mounts cfg "/spec/initContainers"
                (pyOr ics0 (PyVal.list [])) with
            | error e => simp [hp2] at hb
            | ok p2 =>
              simp only [hp2] at hb
              injection hb with h'
              subst h'
              refine ⟨p1, p2, pyOr cs0 (PyVal.list []), pyOr ics0 (PyVal.list []),
                rfl, hp1, hp2, ?_, ?_⟩
              · intro p hmem
                obtain ⟨-, i, j, hpath⟩ :=
                  pfvm_path_shape cfg "/spec/containers" _ p1 hp1 p hmem
                exact ⟨toString i ++ ("/volumeMounts/" ++ (toString j ++ "/mountPath")),
                  by rw [hpath, mkPatchPath_root' "/spec/containers"
                    "/spec/containers/" (by decide)]⟩
              · intro p hmem
                obtain ⟨-, i, j, hpath⟩ :=
                  pfvm_path_shape cfg "/spec/initContainers" _ p2 hp2 p hmem
                exact ⟨toString i ++ ("/volumeMounts/" ++ (toString j ++ "/mountPath")),
                  by rw [hpath, mkPatchPath_root' "/spec/initContainers"
                    "/spec/initContainers/" (by decide)]⟩
  · intro hd
    unfold build_patches at hb
    cases hpk : pyEqStr kind "Pod" with
    | true =>
      exfalso
      cases kind with
      | str s =>
        simp only [pyEqStr] at hpk hd
        have h1 : s = "Pod" := eq_of_beq hpk
        have h2 : s = "Deployment" := eq_of_beq hd
        rw [h1] at h2
        exact absurd h2 (by decide)
      | none => simp [pyEqStr] at hpk
      | bool b => simp [pyEqStr] at hpk
      | int n => simp [pyEqStr] at hpk
      | list xs => simp [pyEqStr] at hpk
      | dict es => simp [pyEqStr] at hpk
    | false =>
      simp only [hpk, hd, Bool.false_eq_true, if_false, if_true] at hb
      cases hs : pyGet obj "spec" with
      | error e => simp [hs] at hb
      | ok spec0 =>
        simp only [hs] at hb
        cases ht : pyGet (pyOr spec0 pyEmptyDict) "template" with
        | error e => simp [ht] at hb
        | ok t0 =>
          simp only [ht] at hb
          cases hts : pyGet (pyOr t0 pyEmptyDict) "spec" with
          | error e => simp [hts] at hb
          | ok ts0 =>
            simp only [hts] at hb
            cases hcs : pyGet (pyOr ts0 pyEmptyDict) "containers" with
            | error e => simp [hcs] at hb
            | ok cs0 =>
              simp only [hcs] at hb
              cases hics : pyGet (pyOr ts0 pyEmptyDict) "initContainers" with
              | error e => simp [hics] at hb
              | ok ics0 =>
                simp only [hics] at hb
                cases hp1 : patches_for_volume_mounts cfg "/spec/template/spec/containers"
                    (pyOr cs0 (PyVal.list [])) with
                | error e => simp [hp1] at hb
                | ok p1 =>
                  simp only [hp1] at hb
                  cases hp2 : patches_for_volume_mounts cfg "/spec/template/spec/initContainers"
                      (pyOr ics0 (PyVal.list [])) with
                  | error e => simp [hp2] at hb
                  | ok p2 =>
                    simp only [hp2] at hb
                    injection hb with h'
                    subst h'
                    constructor
                    · intro p hmem
                      rcases List.mem_append.mp hmem with h1 | h2
                      · obtain ⟨-, i, j, hpath⟩ :=
                          pfvm_path_shape cfg "/spec/template/spec/containers" _ p1 hp1 p h1
                        exact Or.inl ⟨toString i ++ ("/volumeMounts/" ++ (toString j ++ "/mountPath")),
                          by rw [hpath, mkPatchPath_root' "/spec/template/spec/containers"
                            "/spec/template/spec/containers/" (by decide)]⟩
                      · obtain ⟨-, i, j, hpath⟩ :=
                          pfvm_path_shape cfg "/spec/template/spec/initContainers" _ p2 hp2 p h2
                        exact Or.inr ⟨toString i ++ ("/volumeMounts/" ++ (toString j ++ "/mountPath")),
                          by rw [hpath, mkPatchPath_root' "/spec/template/spec/initContainers"
                            "/spec/template/spec/initContainers/" (by decide)]⟩
                    · intro p hmem r
                      rcases List.mem_append.mp hmem with h1 | h2
                      · obtain ⟨-, i, j, hpath⟩ :=
                          pfvm_path_shape cfg "/spec/template/spec/containers" _ p1 hp1 p h1
                        rw [hpath, mkPatchPath_root' "/spec/template/spec/containers"
                          "/spec/template/spec/containers/" (by decide)]
                        exact str_append_ne "/spec/containers" "/spec/template/spec/containers/"
                          (by decide) (by decide) _ _
                      · obtain ⟨-, i, j, hpath⟩ :=
                          pfvm_path_shape cfg "/spec/template/spec/initContainers" _ p2 hp2 p h2
                        rw [hpath, mkPatchPath_root' "/spec/template/spec/initContainers"
                          "/spec/template/spec/initContainers/" (by decide)]
                        exact str_append_ne "/spec/containers" "/spec/template/spec/initContainers/"
                          (by decide) (by decide) _ _

theorem build_patches_dispatch_witness :
    build_patches defaultConfig (PyVal.str "ConfigMap") examplePodObj = Except.ok [] ∧
    (PatchOp.mk "replace" "/spec/template/spec/containers/0/volumeMounts/0/mountPath"
        "/blah/home/").path ≠ "/spec/containers" ++ "/0/volumeMounts/0/mountPath" := by
  constructor
  · have h1 :=
      (build_patches_dispatch defaultConfig (PyVal.str "ConfigMap") examplePodObj [] rfl).1
        rfl rfl
    rfl
  · obtain ⟨-, -, h3⟩ :=
      build_patches_dispatch defaultConfig (PyVal.str "Deployment") exampleDeployObj
        [PatchOp.mk "replace" "/spec/template/spec/containers/0/volumeMounts/0/mountPath"
          "/blah/home/"] rfl
    exact (h3 rfl).2
      (PatchOp.mk "replace" "/spec/template/spec/containers/0/volumeMounts/0/mountPath"
        "/blah/home/")
      (List.Mem.head _) "/0/volumeMounts/0/mountPath"

/-- C9 counterexample: a present but wrong-typed nested field makes the
accessors raise. `metadata` set to the truthy string `"x"` survives
`or {}` and then `"x".get("labels")` raises `AttributeError`; a truthy
non-list `volumeMounts` makes the mount walk raise as well. The exceptions
are only caught at the handler's top level. -/
theorem accessors_raise_on_wrong_type :
    has_target_label defaultConfig (PyVal.dict [("metadata", PyVal.str "x")]) =
      Except.error PyErr.attributeError ∧
    patches_for_volume_mounts defaultConfig "/spec/containers"
      (PyVal.list [PyVal.dict [("volumeMounts", PyVal.str "ab")]]) =
      Except.error PyErr.attributeError := ⟨rfl, rfl⟩

/-- Python `a or b` falls to `b` when `a` is falsy. -/
theorem pyOr_of_falsy (a b : PyVal) (h : pyTruthy a = false) : pyOr a b = b := by
  unfold pyOr
  rw [h]
  simp

/-- A falsy `metadata` value is defaulted to `\x7b\x7d`, so the label test is
false whatever the configuration. -/
theorem has_target_label_of_falsy_meta (cfg : Config) (obj m : PyVal)
    (hget : pyGet obj "metadata" = Except.ok m) (h : pyTruthy m = false) :
    has_target_label cfg obj = Except.ok false := by
  unfold has_target_label
  simp only [hget]
  rw [pyOr_of_falsy _ _ h]
  rfl

/-- Under a `metadata` dict, a missing or falsy `labels` value is defaulted
to `\x7b\x7d`, so the label test is false whatever the configuration. -/
theorem has_target_label_of_falsy_labels (cfg : Config) (obj : PyVal)
    (ms : List (String × PyVal))
    (hget : pyGet obj "metadata" = Except.ok (PyVal.dict ms))
    (hl : pyTruthy ((List.lookup "labels" ms).getD PyVal.none) = false) :
    has_target_label cfg obj = Except.ok false := by
  have hlabget : pyGet (pyOr (PyVal.dict ms) pyEmptyDict) "labels" =
      Except.ok ((List.lookup "labels" ms).getD PyVal.none) := by
    cases ms with
    | nil => rfl
    | cons a tl => rfl
  unfold has_target_label
  simp only [hget, hlabget]
  rw [pyOr_of_falsy _ _ hl]
  rfl

/-- Walking containers whose `volumeMounts` values are absent or falsy
emits no operation and raises nothing, from any start index. -/
theorem pfvmContainers_empty_of_falsy_vm (cfg : Config) (base : String) :
    ∀ (conts : List PyVal) (i : Nat),
      (∀ c ∈ conts, ∃ cd, c = PyVal.dict cd ∧
        pyTruthy (pyGetD (PyVal.dict cd) "volumeMounts") = false) →
      pfvmContainers cfg base i conts = Except.ok [] := by
  intro conts
  induction conts with
  | nil => intro i h; rfl
  | cons c rest ih =>
    intro i h
    obtain ⟨cd, hc, hvm⟩ := h c (List.Mem.head _)
    subst hc
    have hrest := ih (i + 1) (fun c hc => h c (List.Mem.tail _ hc))
    unfold pfvmContainers
    simp only [pyGetD] at hvm
    simp only [pyGet]
    rw [pyOr_of_falsy _ _ hvm]
    simp only [hrest]
    rfl

/-- Walking mounts whose `mountPath` values are absent or not strings
emits no operation and raises nothing. -/
theorem pfvmMounts_empty_of_nonstr (cfg : Config) (base : String) (ci : Nat) :
    ∀ (ms : List PyVal) (j : Nat),
      (∀ m ∈ ms, ∃ md, m = PyVal.dict md ∧
        pyAsStr (pyGetD (PyVal.dict md) "mountPath") = Option.none) →
      pfvmMounts cfg base ci j ms = Except.ok [] := by
  intro ms
  induction ms with
  | nil => intro j h; rfl
  | cons m rest ih =>
    intro j h
    obtain ⟨md, hm, hmp⟩ := h m (List.Mem.head _)
    subst hm
    have hrest := ih (j + 1) (fun m hm => h m (List.Mem.tail _ hm))
    unfold pfvmMounts
    simp only [pyGetD] at hmp
    simp only [pyGet, hrest, hmp]

/-- A falsy `spec` (or falsy values below it) yields zero operations for
both supported kinds. -/
theorem build_patches_empty_of_falsy_spec (cfg : Config) (es : List (String × PyVal))
    (h : pyTruthy ((List.lookup "spec" es).getD PyVal.none) = false) :
    build_patches cfg (PyVal.str "Pod") (PyVal.dict es) = Except.ok [] ∧
    build_patches cfg (PyVal.str "Deployment") (PyVal.dict es) = Except.ok [] := by
  constructor
  · unfold build_patches
    rw [if_pos (by decide : pyEqStr (PyVal.str "Pod") "Pod" = true)]
    simp only [pyGet]
    rw [pyOr_of_falsy _ _ h]
    rfl
  · unfold build_patches
    rw [if_neg (by decide : ¬ pyEqStr (PyVal.str "Deployment") "Pod" = true),
      if_pos (by decide : pyEqStr (PyVal.str "Deployment") "Deployment" = true)]
    simp only [pyGet]
    rw [pyOr_of_falsy _ _ h]
    rfl

/-- C9 amended: the accessors never raise on fields that are absent or
falsy (`None`, empty string/list/dict, `0`, `False`) — the `or`-defaults
treat all of those as empty: a falsy `metadata`, or missing/falsy `labels`
under a present `metadata` dict, is simply not eligible; a falsy container
list, falsy `volumeMounts`, missing/non-string `mountPath`, or falsy
`spec` produce zero operations. -/
theorem accessors_default_empty (cfg : Config) :
    (∀ es, pyTruthy (pyGetD (PyVal.dict es) "metadata") = false →
      has_target_label cfg (PyVal.dict es) = Except.ok false) ∧
    (∀ es ms, pyGetD (PyVal.dict es) "metadata" = PyVal.dict ms →
      pyTruthy (pyGetD (PyVal.dict ms) "labels") = false →
      has_target_label cfg (PyVal.dict es) = Except.ok false) ∧
    (∀ base v, pyTruthy v = false →
      patches_for_volume_mounts cfg base v = Except.ok []) ∧
    (∀ base conts, (∀ c ∈ conts, ∃ cd, c = PyVal.dict cd ∧
        pyTruthy (pyGetD (PyVal.dict cd) "volumeMounts") = false) →
      patches_for_volume_mounts cfg base (PyVal.list conts) = Except.ok []) ∧
    (∀ base ci j ms, (∀ m ∈ ms, ∃ md, m = PyVal.dict md ∧
        pyAsStr (pyGetD (PyVal.dict md) "mountPath") = Option.none) →
      pfvmMounts cfg base ci j ms = Except.ok []) ∧
    (∀ es, pyTruthy (pyGetD (PyVal.dict es) "spec") = false →
      build_patches cfg (PyVal.str "Pod") (PyVal.dict es) = Except.ok [] ∧
      build_patches cfg (PyVal.str "Deployment") (PyVal.dict es) = Except.ok []) := by
  refine ⟨?_, ?_, ?_, ?_, ?_, ?_⟩
  · intro es h
    simp only [pyGetD] at h
    exact has_target_label_of_falsy_meta cfg (PyVal.dict es) _ rfl h
  · intro es ms hm hl
    simp only [pyGetD] at hm hl
    refine has_target_label_of_falsy_labels cfg (PyVal.dict es) ms ?_ hl
    rw [show pyGet (PyVal.dict es) "metadata" =
        Except.ok ((List.lookup "metadata" es).getD PyVal.none) from rfl, hm]
  · intro base v h
    unfold patches_for_volume_mounts
    rw [pyOr_of_falsy _ _ h]
    rfl
  · intro base conts h
    have hc := pfvmContainers_empty_of_falsy_vm cfg base conts 0 h
    cases conts with
    | nil => rfl
    | cons c rest => exact hc
  · intro base ci j ms h
    exact pfvmMounts_empty_of_nonstr cfg base ci ms j h
  · intro es h
    simp only [pyGetD] at h
    exact build_patches_empty_of_falsy_spec cfg es h

theorem accessors_default_empty_witness :
    has_target_label defaultConfig (PyVal.dict [("metadata", PyVal.dict [])]) =
      Except.ok false ∧
    has_target_label defaultConfig (PyVal.dict [("metadata", PyVal.str "")]) =
      Except.ok false ∧
    has_target_label defaultConfig
      (PyVal.dict [("metadata", PyVal.dict [("name", PyVal.str "x")])]) =
      Except.ok false ∧
    patches_for_volume_mounts defaultConfig "/spec/containers" PyVal.none =
      Except.ok [] ∧
    patches_for_volume_mounts defaultConfig "/spec/containers"
      (PyVal.list [PyVal.dict [("volumeMounts", PyVal.list [])]]) = Except.ok [] ∧
    pfvmMounts defaultConfig "/spec/containers" 0 0 [PyVal.dict []] = Except.ok [] ∧
    build_patches defaultConfig (PyVal.str "Pod") (PyVal.dict []) = Except.ok [] :=
  ⟨(accessors_default_empty defaultConfig).1 [("metadata", PyVal.dict [])] rfl,
   (accessors_default_empty defaultConfig).1 [("metadata", PyVal.str "")] rfl,
   (accessors_default_empty defaultConfig).2.1
     [("metadata", PyVal.dict [("name", PyVal.str "x")])] [("name", PyVal.str "x")]
     rfl rfl,
   (accessors_default_empty defaultConfig).2.2.1 "/spec/containers" PyVal.none rfl,
   (accessors_default_empty defaultConfig).2.2.2.1 "/spec/containers"
     [PyVal.dict [("volumeMounts", PyVal.list [])]]
     (by intro c hc
         simp only [List.mem_singleton] at hc
         subst hc
         exact ⟨[("volumeMounts", PyVal.list [])], rfl, rfl⟩),
   (accessors_default_empty defaultConfig).2.2.2.2.1 "/spec/containers" 0 0
     [PyVal.dict []]
     (by intro m hm
         simp only [List.mem_singleton] at hm
         subst hm
         exact ⟨[], rfl, rfl⟩),
   ((accessors_default_empty defaultConfig).2.2.2.2.2 [] rfl).1⟩

/-- C10: Deployment eligibility is decided solely by the top-level
`metadata.labels`: when `has_target_label` rejects the Deployment object,
the response carries no patch and zero operations are computed, for every
pod template content — even one whose template metadata carries the label. -/
theorem deployment_gate_top_level_only (cfg : Config) (uid metaV tmplSpec : PyVal)
    (hlab : has_target_label cfg (deploymentObjTL cfg metaV tmplSpec) = Except.ok false) :
    mutateTry cfg (Option.some (deploymentBodyTL cfg uid metaV tmplSpec)) =
      Except.ok (AdmissionResponse.mk uid true Option.none Option.none) ∧
    mutateOps cfg (deploymentBodyTL cfg uid metaV tmplSpec) = Except.ok [] := by
  constructor
  · have key : mutateTry cfg (Option.some (deploymentBodyTL cfg uid metaV tmplSpec)) =
        (match has_target_label cfg (deploymentObjTL cfg metaV tmplSpec) with
         | Except.error e => Except.error e
         | Except.ok el =>
           if el then
             match build_patches cfg (PyVal.str "Deployment")
                 (deploymentObjTL cfg metaV tmplSpec) with
             | Except.error e => Except.error e
             | Except.ok ops =>
               if ops.isEmpty then
                 Except.ok (AdmissionResponse.mk uid true Option.none Option.none)
               else
                 Except.ok (AdmissionResponse.mk uid true
                   (Option.some (b64encode (utf8Bytes (json_dumps_ops ops))))
                   (Option.some "JSONPatch"))
           else Except.ok (AdmissionResponse.mk uid true Option.none Option.none)) := rfl
    exact key.trans (by rw [hlab]; rfl)
  · have key : mutateOps cfg (deploymentBodyTL cfg uid metaV tmplSpec) =
        (match has_target_label cfg (deploymentObjTL cfg metaV tmplSpec) with
         | Except.error e => Except.error e
         | Except.ok el =>
           if el then
             build_patches cfg (PyVal.str "Deployment") (deploymentObjTL cfg metaV tmplSpec)
           else Except.ok []) := rfl
    exact key.trans (by rw [hlab]; rfl)

theorem deployment_gate_top_level_only_witness :
    mutateTry defaultConfig (Option.some (deploymentBodyTL defaultConfig (PyVal.str "u9")
        (PyVal.dict []) exampleTmplSpec)) =
      Except.ok (AdmissionResponse.mk (PyVal.str "u9") true Option.none Option.none) ∧
    mutateOps defaultConfig (deploymentBodyTL defaultConfig (PyVal.str "u9")
        (PyVal.dict []) exampleTmplSpec) = Except.ok [] :=
  deployment_gate_top_level_only defaultConfig (PyVal.str "u9") (PyVal.dict [])
    exampleTmplSpec rfl
